import Mathlib

/-!
# Company formation server: shallow embedding and verification

This file embeds the validation layer, the four document-template
functions, and the `POST /form-company` endpoint of `app.py`, and proves
the spec's claims about them.

Conventions of the embedding:
* Python strings are Lean `String`s; `str.upper()` is modelled character
  by character (ASCII case mapping, which is what all inputs relevant to
  the spec use).
* The PDF canvas is modelled as the ordered list of drawing commands the
  code issues (`setFont`, `drawCentredString`, `drawString`); the exact
  byte serialisation done by reportlab is irrelevant to every claim.
* `datetime.now()` is modelled by an explicit `PyDate` argument holding
  the results of `strftime("%d")` and `strftime("%B, %Y")`; the code
  reads the clock inside the template functions, so the date is threaded
  through as a parameter (the spec itself asks for an injectable clock).
* A pydantic model construction `CompanyFormation(**data)` is the
  function `validate`: fields are checked in declaration order and the
  first failure raises; the raised `ValidationError` is modelled by the
  `VError` value naming the offending field/constraint.
* The Flask responses are the `HttpResponse` inductive: a JSON error
  body `{"error": msg}` with a status code, or a `send_file` download
  with a filename, a mimetype and (for the zip) its entries.
-/

/-! ## Definitions: validation layer, templates, endpoint -/

/-- The validated pydantic model: four string fields.  `company_type`
is kept as the underlying string (pydantic stores the literal value). -/
structure CompanyFormation where
  company_name : String
  state_of_formation : String
  company_type : String
  incorporator_name : String

deriving DecidableEq, Repr

/-- The raw request payload: each of the four fields may be missing
(absent JSON key / absent form field, i.e. `None`). -/
structure RawPayload where
  company_name : Option String
  state_of_formation : Option String
  company_type : Option String
  incorporator_name : Option String

deriving DecidableEq, Repr

/-- A pydantic validation failure, tagged by the failing field/constraint. -/
inductive VError where
  | missingField (fieldName : String)
  | invalidCompanyName
  | invalidState
  | invalidCompanyType

deriving DecidableEq, Repr

/-- Python's `\s` character class for `str` patterns (Unicode whitespace). -/
def isPythonSpace (c : Char) : Bool :=
  c = ' ' || c = '\t' || c = '\n' || c = '\x0b' || c = '\x0c' || c = '\r' ||
  c = '\x1c' || c = '\x1d' || c = '\x1e' || c = '\x1f' ||
  c = '\x85' || c = '\xa0' || c = '\u1680' ||
  ('\u2000' ≤ c && c ≤ '\u200a') ||
  c = '\u2028' || c = '\u2029' || c = '\u202f' || c = '\u205f' || c = '\u3000'

/-- The character class `[a-zA-Z0-9\s,\.\'&]` of the company-name regex
(39 is the apostrophe code point). -/
def allowedNameChar (c : Char) : Bool :=
  ('a' ≤ c && c ≤ 'z') || ('A' ≤ c && c ≤ 'Z') || ('0' ≤ c && c ≤ '9') ||
  isPythonSpace c || c = ',' || c = '.' || c.toNat = 39 || c = '&'

/-- `re.match(r'^[a-zA-Z0-9\s,\.\'&]+$', v)` as a Boolean: a match
requires a non-empty run of class characters from the start, ending at a
position where `$` matches — the end of the string, or just before a
single trailing newline (Python's `$` semantics without `re.DOTALL`). -/
def nameRegexMatches (v : String) : Bool :=
  let cs := v.data
  (!cs.isEmpty && cs.all allowedNameChar) ||
  (cs.getLast? = some '\n' && !cs.dropLast.isEmpty && cs.dropLast.all allowedNameChar)

/-- The `validate_company_name` validator: raises unless the regex
matches, and returns the value unchanged. -/
def validate_company_name (v : String) : Except VError String :=
  if nameRegexMatches v then .ok v else .error .invalidCompanyName

/-- ASCII uppercase mapping on a character, as Python's `str.upper()`
acts on the ASCII range. -/
def upChar (c : Char) : Char :=
  if 'a' ≤ c && c ≤ 'z' then Char.ofNat (c.toNat - 32) else c

/-- `v.upper()` (character-wise; all spec-relevant inputs are ASCII). -/
def pyUpper (v : String) : String := ⟨v.data.map upChar⟩

/-- The fixed 56-entry set of state/territory codes from `validate_state`. -/
def statesList : List String :=
  ["AL", "AK", "AZ", "AR", "CA", "CO", "CT", "DE", "FL", "GA",
   "HI", "ID", "IL", "IN", "IA", "KS", "KY", "LA", "ME", "MD",
   "MA", "MI", "MN", "MS", "MO", "MT", "NE", "NV", "NH", "NJ",
   "NM", "NY", "NC", "ND", "OH", "OK", "OR", "PA", "RI", "SC",
   "SD", "TN", "TX", "UT", "VT", "VA", "WA", "WV", "WI", "WY",
   "DC", "PR", "GU", "VI", "AS", "MP"]

/-- The `validate_state` validator: raises unless `v.upper()` is in the
set, and returns `v.upper()`. -/
def validate_state (v : String) : Except VError String :=
  if pyUpper v ∈ statesList then .ok (pyUpper v) else .error .invalidState

/-- The `Literal["corporation", "LLC"]` constraint on `company_type`. -/
def validate_company_type (v : String) : Except VError String :=
  if v = "corporation" || v = "LLC" then .ok v else .error .invalidCompanyType

/-- `CompanyFormation(**data)`: pydantic checks the fields in
declaration order (name, state, type, incorporator); a missing field or
a failed validator raises, short-circuiting construction. -/
def validate (p : RawPayload) : Except VError CompanyFormation :=
  match p.company_name with
  | none => .error (.missingField "company_name")
  | some nv =>
    match validate_company_name nv with
    | .error e => .error e
    | .ok n =>
      match p.state_of_formation with
      | none => .error (.missingField "state_of_formation")
      | some sv =>
        match validate_state sv with
        | .error e => .error e
        | .ok st =>
          match p.company_type with
          | none => .error (.missingField "company_type")
          | some cv =>
            match validate_company_type cv with
            | .error e => .error e
            | .ok ct =>
              match p.incorporator_name with
              | none => .error (.missingField "incorporator_name")
              | some iv => .ok ⟨n, st, ct, iv⟩

deriving instance DecidableEq for Except

/-- The date values the templates read from `datetime.now()`:
`day = strftime("%d")` and `monthYear = strftime("%B, %Y")`; the
`"%d %B, %Y"` format used by the text bodies is `day ++ " " ++ monthYear`. -/
structure PyDate where
  day : String
  monthYear : String

deriving DecidableEq, Repr

/-- A reportlab canvas drawing command, as issued by the code. -/
inductive DrawOp where
  | setFont (font : String) (size : Nat)
  | drawCentredString (x y : Nat) (text : String)
  | drawString (x y : Nat) (text : String)

deriving DecidableEq, Repr

/-- `generate_delaware_articles`: the PDF drawing commands and the text
body with `company_name`, `incorporator_name` and the date substituted. -/
def generate_delaware_articles (cd : CompanyFormation) (now : PyDate) :
    List DrawOp × String :=
  let ops : List DrawOp :=
    [.setFont "Helvetica-Bold" 16,
     .drawCentredString 300 750 "CERTIFICATE OF INCORPORATION",
     .setFont "Helvetica" 12,
     .drawString 50 700 "FIRST: The name of this corporation is:",
     .drawString 70 680 cd.company_name,
     .drawString 50 630 "SECOND: Its registered office in the State of Delaware is located at:",
     .drawString 70 610 "251 Little Falls Drive, Wilmington, New Castle County, Delaware 19808",
     .drawString 50 560 "THIRD: The purpose of the corporation is to engage in any lawful act or activity for",
     .drawString 50 540 "which corporations may be organized under the General Corporation Law of Delaware.",
     .drawString 50 490 "FOURTH: The total number of shares of stock which this corporation is authorized",
     .drawString 50 470 "to issue is 1,000 shares of Common Stock with $0.01 par value per share.",
     .drawString 50 200 "IN WITNESS WHEREOF, the undersigned, being the incorporator hereinbefore named,",
     .drawString 50 180 ("has executed this Certificate of Incorporation this " ++ now.day ++ " day of"),
     .drawString 50 160 (now.monthYear ++ "."),
     .drawString 50 100 "Incorporator:",
     .drawString 70 80 cd.incorporator_name]
  let today := now.day ++ " " ++ now.monthYear
  let text_content :=
    "CERTIFICATE OF INCORPORATION" ++
    "\n\nFIRST: The name of this corporation is:\n" ++
    cd.company_name ++
    "\n\nSECOND: Its registered office in the State of Delaware is located at:\n" ++
    "251 Little Falls Drive, Wilmington, New Castle County, Delaware 19808\n\n" ++
    "THIRD: The purpose of the corporation is to engage in any lawful act or activity for\n" ++
    "which corporations may be organized under the General Corporation Law of Delaware.\n\n" ++
    "FOURTH: The total number of shares of stock which this corporation is authorized\n" ++
    "to issue is 1,000 shares of Common Stock with $0.01 par value per share.\n\n" ++
    "IN WITNESS WHEREOF, the undersigned, being the incorporator hereinbefore named,\n" ++
    "has executed this Certificate of Incorporation this " ++
    today ++
    ".\n\nIncorporator:\n" ++
    cd.incorporator_name
  (ops, text_content)

/-- `generate_delaware_llc_certificate`: PDF drawing commands and text body. -/
def generate_delaware_llc_certificate (cd : CompanyFormation) (now : PyDate) :
    List DrawOp × String :=
  let ops : List DrawOp :=
    [.setFont "Helvetica-Bold" 16,
     .drawCentredString 300 750 "CERTIFICATE OF FORMATION",
     .setFont "Helvetica" 12,
     .drawString 50 700 "FIRST: The name of the limited liability company is:",
     .drawString 70 680 cd.company_name,
     .drawString 50 630 "SECOND: The address of its registered office in the State of Delaware is:",
     .drawString 70 610 "251 Little Falls Drive, Wilmington, New Castle County, Delaware 19808",
     .drawString 50 560 "THIRD: The name and address of its registered agent in the State of Delaware is:",
     .drawString 70 540 "Corporation Service Company",
     .drawString 70 520 "251 Little Falls Drive",
     .drawString 70 500 "Wilmington, DE 19808",
     .drawString 50 450 "FOURTH: The limited liability company shall be managed by its members.",
     .drawString 50 200 ("IN WITNESS WHEREOF, the undersigned has executed this Certificate of Formation this " ++ now.day ++ " day of"),
     .drawString 50 180 (now.monthYear ++ "."),
     .drawString 50 100 "Authorized Person:",
     .drawString 70 80 cd.incorporator_name]
  let today := now.day ++ " " ++ now.monthYear
  let text_content :=
    "CERTIFICATE OF FORMATION" ++
    "\n\nFIRST: The name of the limited liability company is:\n" ++
    cd.company_name ++
    "\n\nSECOND: The address of its registered office in the State of Delaware is:\n" ++
    "251 Little Falls Drive, Wilmington, New Castle County, Delaware 19808\n\n" ++
    "THIRD: The name and address of its registered agent in the State of Delaware is:\n" ++
    "Corporation Service Company\n" ++
    "251 Little Falls Drive\n" ++
    "Wilmington, DE 19808\n\n" ++
    "FOURTH: The limited liability company shall be managed by its members.\n\n" ++
    "IN WITNESS WHEREOF, the undersigned has executed this Certificate of Formation this " ++
    today ++
    ".\n\nAuthorized Person:\n" ++
    cd.incorporator_name
  (ops, text_content)

/-- `generate_california_articles`: returns only the PDF drawing
commands — the function produces no text body. -/
def generate_california_articles (cd : CompanyFormation) (now : PyDate) :
    List DrawOp :=
  [.setFont "Helvetica-Bold" 16,
   .drawCentredString 300 750 "ARTICLES OF INCORPORATION",
   .setFont "Helvetica" 12,
   .drawString 50 700 "ARTICLE I: The name of this corporation is:",
   .drawString 70 680 cd.company_name,
   .drawString 50 630 "ARTICLE II: The purpose of the corporation is to engage in any lawful act or activity",
   .drawString 50 610 "for which a corporation may be organized under the General Corporation Law of California.",
   .drawString 50 560 "ARTICLE III: The name and address in California of the corporation's initial agent for service of process is:",
   .drawString 70 540 "California Registered Agent, Inc.",
   .drawString 70 520 "123 Main Street",
   .drawString 70 500 "Los Angeles, CA 90001",
   .drawString 50 200 "IN WITNESS WHEREOF, the undersigned, being the incorporator hereinbefore named,",
   .drawString 50 180 ("has executed these Articles of Incorporation this " ++ now.day ++ " day of"),
   .drawString 50 160 (now.monthYear ++ "."),
   .drawString 50 100 "Incorporator:",
   .drawString 70 80 cd.incorporator_name]

/-- `generate_california_llc_certificate`: returns only the PDF drawing
commands — the function produces no text body. -/
def generate_california_llc_certificate (cd : CompanyFormation) (now : PyDate) :
    List DrawOp :=
  [.setFont "Helvetica-Bold" 16,
   .drawCentredString 300 750 "ARTICLES OF ORGANIZATION",
   .setFont "Helvetica" 12,
   .drawString 50 700 "ARTICLE I: The name of the limited liability company is:",
   .drawString 70 680 cd.company_name,
   .drawString 50 630 "ARTICLE II: The purpose of the limited liability company is to engage in any lawful business.",
   .drawString 50 560 "ARTICLE III: The name and address in California of the LLC's initial agent for service of process is:",
   .drawString 70 540 "California Registered Agent, Inc.",
   .drawString 70 520 "123 Main Street",
   .drawString 70 500 "Los Angeles, CA 90001",
   .drawString 50 200 ("IN WITNESS WHEREOF, the undersigned has executed these Articles of Organization this " ++ now.day ++ " day of"),
   .drawString 50 180 (now.monthYear ++ "."),
   .drawString 50 100 "Authorized Person:",
   .drawString 70 80 cd.incorporator_name]

/-- A file stored in the zip archive by `zf.writestr`: the PDF bytes
(modelled by the drawing commands that produced them) or a text body. -/
inductive FileContent where
  | pdf (ops : List DrawOp)
  | txt (s : String)

deriving DecidableEq, Repr

/-- A response of the `/form-company` endpoint: a JSON error body
`{"error": ...}` with an HTTP status, or a `send_file` download with a
download name, a mimetype, and the archive entries. -/
inductive ErrBody where
  /-- `str(e)` of a pydantic `ValidationError` (jsonified as the error value). -/
  | validationError (e : VError)
  /-- A literal message string from the endpoint body. -/
  | message (s : String)

deriving DecidableEq, Repr

inductive HttpResponse where
  | jsonError (status : Nat) (body : ErrBody)
  | download (downloadName : String) (mimetype : String)
      (entries : List (String × FileContent))

deriving DecidableEq, Repr

/-- The `POST /form-company` handler: construct the pydantic model (any
exception becomes a 400 JSON error), then dispatch on the state: only
`DE` produces documents — a zip with `{name}_certificate.pdf` and
`{name}_certificate.txt`; every other validated state (California
included) falls into the 400 unsupported-jurisdiction branch.  The
`send_file(pdf_buffer, ...)` after the `if/else` in the source is
unreachable (both branches return) and has no counterpart here. -/
def form_company (p : RawPayload) (now : PyDate) : HttpResponse :=
  match validate p with
  | .error e => .jsonError 400 (.validationError e)
  | .ok cd =>
    if cd.state_of_formation = "DE" then
      if cd.company_type = "corporation" then
        let r := generate_delaware_articles cd now
        .download (cd.company_name ++ "_formation_documents.zip") "application/zip"
          [(cd.company_name ++ "_certificate.pdf", .pdf r.1),
           (cd.company_name ++ "_certificate.txt", .txt r.2)]
      else if cd.company_type = "LLC" then
        let r := generate_delaware_llc_certificate cd now
        .download (cd.company_name ++ "_formation_documents.zip") "application/zip"
          [(cd.company_name ++ "_certificate.pdf", .pdf r.1),
           (cd.company_name ++ "_certificate.txt", .txt r.2)]
      else
        .jsonError 400 (.message "Unsupported company type")
    else
      .jsonError 400
        (.message "Only Delaware and California entities are supported at this time")

/-- `needle` occurs as a contiguous substring of `hay`. -/
def strContains (hay needle : String) : Prop :=
  ∃ a b : String, hay = a ++ needle ++ b

/-- The strings a sequence of drawing commands places on the page. -/
def drawnStrings (ops : List DrawOp) : List String :=
  ops.filterMap fun op =>
    match op with
    | .setFont _ _ => none
    | .drawCentredString _ _ s => some s
    | .drawString _ _ s => some s

/-- The value `v` appears both in the drawn document body and in the
text body. -/
def mentionsValue (ops : List DrawOp) (txt : String) (v : String) : Prop :=
  (∃ s ∈ drawnStrings ops, strContains s v) ∧ strContains txt v

/-- The document body and the text body carry the same substituted
values: the company name, the incorporator name, and both date parts. -/
def substitutionsAgree (ops : List DrawOp) (txt : String)
    (cd : CompanyFormation) (d : PyDate) : Prop :=
  mentionsValue ops txt cd.company_name ∧
  mentionsValue ops txt cd.incorporator_name ∧
  mentionsValue ops txt d.day ∧
  mentionsValue ops txt d.monthYear

/-- The artifacts each of the four template functions returns, keyed by
the `(jurisdiction, entity type)` pair it serves: a document body, and a
text body exactly when the function produces one (the Delaware functions
return a pair, the California functions return only the drawing list). -/
def templateArtifacts (st ct : String) (cd : CompanyFormation) (d : PyDate) :
    Option (List DrawOp × Option String) :=
  if st = "DE" && ct = "corporation" then
    some ((generate_delaware_articles cd d).1, some (generate_delaware_articles cd d).2)
  else if st = "DE" && ct = "LLC" then
    some ((generate_delaware_llc_certificate cd d).1,
          some (generate_delaware_llc_certificate cd d).2)
  else if st = "CA" && ct = "corporation" then
    some (generate_california_articles cd d, none)
  else if st = "CA" && ct = "LLC" then
    some (generate_california_llc_certificate cd d, none)
  else none

/-- The normalized model, re-serialized as a raw payload (all four
fields present, holding the stored canonical values). -/
def toPayload (r : CompanyFormation) : RawPayload :=
  ⟨some r.company_name, some r.state_of_formation,
   some r.company_type, some r.incorporator_name⟩

/-- The spec's end-to-end scenario 1 payload and its validated model. -/
def acmePayload : RawPayload :=
  ⟨some "Acme Corp, Inc.", some "DE", some "corporation", some "John Smith"⟩

def acmeModel : CompanyFormation :=
  ⟨"Acme Corp, Inc.", "DE", "corporation", "John Smith"⟩

/-! ## Helper lemmas -/

theorem string_append_assoc (a b c : String) : a ++ b ++ c = a ++ (b ++ c) :=
  String.ext (by simp [String.data_append, List.append_assoc])

theorem string_empty_append (s : String) : "" ++ s = s :=
  String.ext (by simp [String.data_append])

theorem string_append_empty (s : String) : s ++ "" = s :=
  String.ext (by simp [String.data_append])

theorem strContains_self (s : String) : strContains s s :=
  ⟨"", "", by rw [string_empty_append, string_append_empty]⟩

/-- The 56 codes are all upper-case fixed points of `pyUpper` (so a
canonically stored state re-uppercases to itself). -/
theorem states_upper_fixed : ∀ c ∈ statesList, pyUpper c = c := by decide

theorem validate_company_name_ok {v r : String}
    (h : validate_company_name v = .ok r) :
    r = v ∧ nameRegexMatches v = true := by
  unfold validate_company_name at h
  split at h
  · exact ⟨(Except.ok.injEq .. ▸ h).symm, by assumption⟩
  · simp at h

theorem validate_state_ok {v r : String}
    (h : validate_state v = .ok r) :
    r = pyUpper v ∧ r ∈ statesList := by
  unfold validate_state at h
  split at h
  · have := (Except.ok.injEq .. ▸ h)
    exact ⟨this.symm, this ▸ (by assumption)⟩
  · simp at h

theorem validate_company_type_ok {v r : String}
    (h : validate_company_type v = .ok r) :
    r = v ∧ (v = "corporation" ∨ v = "LLC") := by
  unfold validate_company_type at h
  split at h
  · refine ⟨(Except.ok.injEq .. ▸ h).symm, ?_⟩
    rename_i hb
    rcases Bool.or_eq_true .. ▸ hb with h1 | h1
    · exact Or.inl (by simpa using h1)
    · exact Or.inr (by simpa using h1)
  · simp at h

/-- Everything a successful pydantic construction guarantees about the
stored model: the name passed the regex, the state is a canonically
upper-cased member of the 56-code set, and the type is one of the two
literals. -/
theorem validate_ok_inv {p : RawPayload} {r : CompanyFormation}
    (h : validate p = .ok r) :
    nameRegexMatches r.company_name = true ∧
    r.state_of_formation ∈ statesList ∧
    pyUpper r.state_of_formation = r.state_of_formation ∧
    (r.company_type = "corporation" ∨ r.company_type = "LLC") := by
  unfold validate at h
  split at h
  · simp at h
  next nv _ =>
  split at h
  · simp at h
  next n hn =>
  split at h
  · simp at h
  next sv _ =>
  split at h
  · simp at h
  next st hst =>
  split at h
  · simp at h
  next cv _ =>
  split at h
  · simp at h
  next ct hct =>
  split at h
  · simp at h
  next iv _ =>
  have hr := (Except.ok.injEq .. ▸ h)
  subst hr
  obtain ⟨hn1, hn2⟩ := validate_company_name_ok hn
  obtain ⟨hs1, hs2⟩ := validate_state_ok hst
  obtain ⟨hc1, hc2⟩ := validate_company_type_ok hct
  subst hn1; subst hs1; subst hc1
  exact ⟨hn2, hs2, states_upper_fixed _ hs2, hc2⟩

theorem strContains_appendl {s t needle : String}
    (h : strContains s needle) : strContains (s ++ t) needle := by
  obtain ⟨a, b, rfl⟩ := h
  exact ⟨a, b ++ t, String.ext (by simp [String.data_append, List.append_assoc])⟩

theorem strContains_appendr {s t needle : String}
    (h : strContains t needle) : strContains (s ++ t) needle := by
  obtain ⟨a, b, rfl⟩ := h
  exact ⟨s ++ a, b, String.ext (by simp [String.data_append, List.append_assoc])⟩

theorem form_company_de_corp (p : RawPayload) (r : CompanyFormation) (d : PyDate)
    (h : validate p = .ok r) (hde : r.state_of_formation = "DE")
    (hct : r.company_type = "corporation") :
    form_company p d =
      .download (r.company_name ++ "_formation_documents.zip") "application/zip"
        [(r.company_name ++ "_certificate.pdf", .pdf (generate_delaware_articles r d).1),
         (r.company_name ++ "_certificate.txt", .txt (generate_delaware_articles r d).2)] := by
  simp [form_company, h, hde, hct]

theorem form_company_de_llc (p : RawPayload) (r : CompanyFormation) (d : PyDate)
    (h : validate p = .ok r) (hde : r.state_of_formation = "DE")
    (hct : r.company_type = "LLC") :
    form_company p d =
      .download (r.company_name ++ "_formation_documents.zip") "application/zip"
        [(r.company_name ++ "_certificate.pdf", .pdf (generate_delaware_llc_certificate r d).1),
         (r.company_name ++ "_certificate.txt", .txt (generate_delaware_llc_certificate r d).2)] := by
  simp [form_company, h, hde, hct]

/-- All four substituted values appear in both artifacts of
`generate_delaware_articles`. -/
theorem delaware_articles_agree (cd : CompanyFormation) (d : PyDate) :
    substitutionsAgree (generate_delaware_articles cd d).1
      (generate_delaware_articles cd d).2 cd d := by
  unfold substitutionsAgree mentionsValue generate_delaware_articles drawnStrings
  simp only [List.filterMap]
  refine ⟨⟨⟨cd.company_name, by simp, strContains_self _⟩, ?_⟩,
          ⟨⟨cd.incorporator_name, by simp, strContains_self _⟩, ?_⟩,
          ⟨⟨"has executed this Certificate of Incorporation this " ++ d.day ++ " day of",
            by simp, strContains_appendl (strContains_appendr (strContains_self _))⟩, ?_⟩,
          ⟨⟨d.monthYear ++ ".", by simp, strContains_appendl (strContains_self _)⟩, ?_⟩⟩
  · exact strContains_appendl <| strContains_appendl <| strContains_appendl <|
      strContains_appendl <| strContains_appendl <| strContains_appendl <|
      strContains_appendl <| strContains_appendl <| strContains_appendl <|
      strContains_appendl <| strContains_appendl <| strContains_appendr <|
      strContains_self _
  · exact strContains_appendr (strContains_self _)
  · exact strContains_appendl <| strContains_appendl <|
      strContains_appendr <| strContains_appendl <| strContains_appendl <|
      strContains_self _
  · exact strContains_appendl <| strContains_appendl <|
      strContains_appendr <| strContains_appendr <| strContains_self _

/-- All four substituted values appear in both artifacts of
`generate_delaware_llc_certificate`. -/
theorem delaware_llc_agree (cd : CompanyFormation) (d : PyDate) :
    substitutionsAgree (generate_delaware_llc_certificate cd d).1
      (generate_delaware_llc_certificate cd d).2 cd d := by
  unfold substitutionsAgree mentionsValue generate_delaware_llc_certificate drawnStrings
  simp only [List.filterMap]
  refine ⟨⟨⟨cd.company_name, by simp, strContains_self _⟩, ?_⟩,
          ⟨⟨cd.incorporator_name, by simp, strContains_self _⟩, ?_⟩,
          ⟨⟨"IN WITNESS WHEREOF, the undersigned has executed this Certificate of Formation this " ++ d.day ++ " day of",
            by simp, strContains_appendl (strContains_appendr (strContains_self _))⟩, ?_⟩,
          ⟨⟨d.monthYear ++ ".", by simp, strContains_appendl (strContains_self _)⟩, ?_⟩⟩
  · exact strContains_appendl <| strContains_appendl <| strContains_appendl <|
      strContains_appendl <| strContains_appendl <| strContains_appendl <|
      strContains_appendl <| strContains_appendl <| strContains_appendl <|
      strContains_appendl <| strContains_appendl <| strContains_appendr <|
      strContains_self _
  · exact strContains_appendr (strContains_self _)
  · exact strContains_appendl <| strContains_appendl <|
      strContains_appendr <| strContains_appendl <| strContains_appendl <|
      strContains_self _
  · exact strContains_appendl <| strContains_appendl <|
      strContains_appendr <| strContains_appendr <| strContains_self _

/-- The regex `^[a-zA-Z0-9\s,\.\'&]+$` matches exactly the non-empty
strings made of class characters: the only extra position Python's `$`
can match at — just before a single trailing newline — adds nothing,
because a newline is itself in the class (via `\s`). -/
theorem nameRegexMatches_iff (v : String) :
    nameRegexMatches v = true ↔
      (v.data ≠ [] ∧ ∀ c ∈ v.data, allowedNameChar c = true) := by
  unfold nameRegexMatches
  simp only [Bool.or_eq_true, Bool.and_eq_true, List.all_eq_true,
    Bool.not_eq_true', List.isEmpty_eq_false, decide_eq_true_eq]
  constructor
  · rintro (⟨h1, h2⟩ | ⟨⟨h1, h2⟩, h3⟩)
    · exact ⟨h1, h2⟩
    · have hne : v.data ≠ [] := by
        intro hh; rw [hh] at h1; simp at h1
      refine ⟨hne, ?_⟩
      intro c hc
      have hdec : v.data.dropLast ++ [v.data.getLast hne] = v.data :=
        List.dropLast_append_getLast hne
      have hlast : v.data.getLast hne = '\n' := by
        have hq := List.getLast?_eq_getLast v.data hne
        rw [hq] at h1
        exact Option.some.inj h1
      rw [← hdec] at hc
      rcases List.mem_append.mp hc with hc1 | hc1
      · exact h3 c hc1
      · have hcn : c = '\n' := by simpa [hlast] using hc1
        subst hcn; decide
  · rintro ⟨h1, h2⟩
    exact Or.inl ⟨h1, h2⟩

/-- C3: `validate_state` accepts an input `v` exactly when `v`
upper-cased is one of the fixed 56 codes, and on acceptance stores the
upper-case canonical code; `"ZZ"` is rejected, all 56 valid codes are
accepted (canonically), and any two spellings with the same upper-casing
validate identically. -/
theorem state_validation_canonical :
    (∀ v : String, (∃ s, validate_state v = .ok s) ↔ pyUpper v ∈ statesList) ∧
    (∀ v s : String, validate_state v = .ok s → s = pyUpper v) ∧
    validate_state "ZZ" = .error .invalidState ∧
    (∀ c ∈ statesList, validate_state c = .ok c) ∧
    (∀ v w : String, pyUpper v = pyUpper w → validate_state v = validate_state w) := by
  refine ⟨?_, ?_, by decide, ?_, ?_⟩
  · intro v
    constructor
    · rintro ⟨s, hs⟩
      obtain ⟨h1, h2⟩ := validate_state_ok hs
      exact h1 ▸ h2
    · intro hm
      exact ⟨pyUpper v, by unfold validate_state; rw [if_pos hm]⟩
  · intro v s hs
    exact (validate_state_ok hs).1
  · intro c hc
    have h1 : pyUpper c = c := states_upper_fixed c hc
    unfold validate_state
    rw [h1, if_pos hc]
  · intro v w h
    unfold validate_state
    rw [h]

/-- Witness for C3 at concrete inputs: `"CA"` is accepted canonically,
and `"ca"` validates exactly as `"CA"` does. -/
theorem state_validation_canonical_witness :
    validate_state "CA" = .ok "CA" ∧ validate_state "ca" = validate_state "CA" :=
  ⟨state_validation_canonical.2.2.2.1 "CA" (by decide),
   state_validation_canonical.2.2.2.2 "ca" "CA" (by decide)⟩

/-- C4: `validate_company_name` accepts a string exactly when it is
non-empty and every character is in the class `[A-Za-z0-9\s,.'&]`;
`"Acme!"` and `""` are rejected, `"Acme, Inc."` is accepted. -/
theorem company_name_validation_class :
    (∀ v : String, (∃ r, validate_company_name v = .ok r) ↔
        (v.data ≠ [] ∧ ∀ c ∈ v.data, allowedNameChar c = true)) ∧
    validate_company_name "Acme!" = .error .invalidCompanyName ∧
    validate_company_name "Acme, Inc." = .ok "Acme, Inc." ∧
    validate_company_name "" = .error .invalidCompanyName := by
  refine ⟨?_, by decide, by decide, by decide⟩
  intro v
  constructor
  · rintro ⟨r, hr⟩
    exact (nameRegexMatches_iff v).mp (validate_company_name_ok hr).2
  · intro h
    exact ⟨v, by
      unfold validate_company_name
      rw [if_pos ((nameRegexMatches_iff v).mpr h)]⟩

/-- Witness for C4 at a concrete input: a name using every permitted
punctuation character is accepted. -/
theorem company_name_validation_class_witness :
    ∃ r, validate_company_name "Smith & Sons 2, Inc." = .ok r :=
  (company_name_validation_class.1 "Smith & Sons 2, Inc.").mpr (by decide)

/-- C5: validation is idempotent — re-validating the normalized output
of a successful validation succeeds and returns the same model. -/
theorem validate_idempotent (p : RawPayload) (r : CompanyFormation)
    (h : validate p = .ok r) : validate (toPayload r) = .ok r := by
  obtain ⟨hname, hmem, hupper, htype⟩ := validate_ok_inv h
  have h1 : validate_company_name r.company_name = .ok r.company_name := by
    unfold validate_company_name; rw [if_pos hname]
  have h2 : validate_state r.state_of_formation = .ok r.state_of_formation := by
    unfold validate_state; rw [hupper, if_pos hmem]
  have h3 : validate_company_type r.company_type = .ok r.company_type := by
    unfold validate_company_type
    rcases htype with ht | ht <;> rw [ht] <;> rfl
  simp [validate, toPayload, h1, h2, h3]

/-- Witness for C5 at a concrete input: the normalization of the
lower-case `"de"` payload revalidates to itself. -/
theorem validate_idempotent_witness :
    validate (toPayload ⟨"Acme Corp, Inc.", "DE", "LLC", "Jane Doe"⟩) =
      .ok ⟨"Acme Corp, Inc.", "DE", "LLC", "Jane Doe"⟩ :=
  validate_idempotent ⟨some "Acme Corp, Inc.", some "de", some "LLC", some "Jane Doe"⟩
    ⟨"Acme Corp, Inc.", "DE", "LLC", "Jane Doe"⟩ (by decide)

/-- C2: any request that validates with a state other than `DE` (and
other than `CA`) gets the exact 400 unsupported-jurisdiction JSON body,
and no archive. -/
theorem non_de_request_rejected (p : RawPayload) (r : CompanyFormation) (d : PyDate)
    (h : validate p = .ok r) (hde : r.state_of_formation ≠ "DE")
    (_hca : r.state_of_formation ≠ "CA") :
    form_company p d = .jsonError 400
      (.message "Only Delaware and California entities are supported at this time") := by
  simp [form_company, h, hde]

/-- Witness for C2: the spec's scenario 2 payload, with `TX`. -/
theorem non_de_request_rejected_witness :
    form_company ⟨some "Acme Corp, Inc.", some "TX", some "corporation", some "John Smith"⟩
        ⟨"12", "October, 2026"⟩ =
      .jsonError 400
        (.message "Only Delaware and California entities are supported at this time") :=
  non_de_request_rejected _ ⟨"Acme Corp, Inc.", "TX", "corporation", "John Smith"⟩ _
    (by decide) (by decide) (by decide)

/-- C7: any payload that fails validation gets a 400 JSON error carrying
the validation failure, and no document or archive is produced. -/
theorem validation_failure_no_archive (p : RawPayload) (e : VError) (d : PyDate)
    (h : validate p = .error e) :
    form_company p d = .jsonError 400 (.validationError e) := by
  simp [form_company, h]

/-- Witness for C7: a payload with the company name missing. -/
theorem validation_failure_no_archive_witness :
    form_company ⟨none, some "DE", some "LLC", some "Jane Doe"⟩ ⟨"12", "October, 2026"⟩ =
      .jsonError 400 (.validationError (.missingField "company_name")) :=
  validation_failure_no_archive _ (.missingField "company_name") _ (by decide)

/-- C8: a Delaware request with `company_type = "partnership"` is
rejected by the `Literal` constraint: the endpoint answers 400 with the
company-type validation error, and no document is generated. -/
theorem de_partnership_unsupported_type :
    form_company ⟨some "Acme Corp, Inc.", some "DE", some "partnership", some "John Smith"⟩
        ⟨"12", "October, 2026"⟩ =
      .jsonError 400 (.validationError .invalidCompanyType) := by decide

/-- C10: every payload that passes validation stores a `company_type`
that is exactly `"corporation"` or `"LLC"`, so no validated request can
reach the endpoint's `"Unsupported company type"` fallback branch. -/
theorem company_type_fallback_unreachable (p : RawPayload) (r : CompanyFormation)
    (d : PyDate) (h : validate p = .ok r) :
    (r.company_type = "corporation" ∨ r.company_type = "LLC") ∧
    form_company p d ≠ .jsonError 400 (.message "Unsupported company type") := by
  obtain ⟨-, -, -, htype⟩ := validate_ok_inv h
  refine ⟨htype, ?_⟩
  by_cases hde : r.state_of_formation = "DE"
  · rcases htype with ht | ht
    · rw [form_company_de_corp p r d h hde ht]; simp
    · rw [form_company_de_llc p r d h hde ht]; simp
  · simp [form_company, h, hde]

/-- Witness for C10 at a concrete validated request. -/
theorem company_type_fallback_unreachable_witness :
    (("corporation" : String) = "corporation" ∨ ("corporation" : String) = "LLC") ∧
    form_company ⟨some "Acme Corp, Inc.", some "DE", some "corporation", some "John Smith"⟩
        ⟨"12", "October, 2026"⟩ ≠
      .jsonError 400 (.message "Unsupported company type") :=
  company_type_fallback_unreachable _ ⟨"Acme Corp, Inc.", "DE", "corporation", "John Smith"⟩
    _ (by decide)

/-- C1 (failing input): the schema endpoint's own California example
validates, yet the endpoint answers it with the 400
unsupported-jurisdiction body instead of dispatching to
`generate_california_articles` — whose document, had it been called,
is titled "ARTICLES OF INCORPORATION".  The `(CA, corporation)` and
`(CA, LLC)` rows of the dispatch table are never reached. -/
theorem ca_corporation_dispatch_gap :
    validate ⟨some "Tech Innovators Co.", some "CA", some "corporation", some "Michael Johnson"⟩ =
      .ok ⟨"Tech Innovators Co.", "CA", "corporation", "Michael Johnson"⟩ ∧
    form_company ⟨some "Tech Innovators Co.", some "CA", some "corporation", some "Michael Johnson"⟩
        ⟨"12", "October, 2026"⟩ =
      .jsonError 400
        (.message "Only Delaware and California entities are supported at this time") ∧
    DrawOp.drawCentredString 300 750 "ARTICLES OF INCORPORATION" ∈
      generate_california_articles
        ⟨"Tech Innovators Co.", "CA", "corporation", "Michael Johnson"⟩
        ⟨"12", "October, 2026"⟩ := by
  refine ⟨by decide, by decide, by decide⟩

/-- C6: the scenario-1 request yields a zip with exactly the two entries
`Acme Corp, Inc._certificate.pdf` and `Acme Corp, Inc._certificate.txt`,
both artifacts titled "CERTIFICATE OF INCORPORATION" with the company
and incorporator names substituted; in general every archive produced by
the endpoint names its entries `{company_name}_certificate.pdf` and
`{company_name}_certificate.txt` with the company name unmodified. -/
theorem acme_archive_contents (d : PyDate) :
    form_company acmePayload d =
      .download "Acme Corp, Inc._formation_documents.zip" "application/zip"
        [("Acme Corp, Inc._certificate.pdf",
          .pdf (generate_delaware_articles acmeModel d).1),
         ("Acme Corp, Inc._certificate.txt",
          .txt (generate_delaware_articles acmeModel d).2)] ∧
    DrawOp.drawCentredString 300 750 "CERTIFICATE OF INCORPORATION" ∈
      (generate_delaware_articles acmeModel d).1 ∧
    DrawOp.drawString 70 680 "Acme Corp, Inc." ∈ (generate_delaware_articles acmeModel d).1 ∧
    DrawOp.drawString 70 80 "John Smith" ∈ (generate_delaware_articles acmeModel d).1 ∧
    strContains (generate_delaware_articles acmeModel d).2 "CERTIFICATE OF INCORPORATION" ∧
    strContains (generate_delaware_articles acmeModel d).2 "Acme Corp, Inc." ∧
    strContains (generate_delaware_articles acmeModel d).2 "John Smith" ∧
    (∀ (p : RawPayload) (r : CompanyFormation), validate p = .ok r →
      r.state_of_formation = "DE" →
      ∃ c1 c2, form_company p d =
        .download (r.company_name ++ "_formation_documents.zip") "application/zip"
          [(r.company_name ++ "_certificate.pdf", c1),
           (r.company_name ++ "_certificate.txt", c2)]) := by
  have hv : validate acmePayload = .ok acmeModel := by decide
  refine ⟨?_, ?_, ?_, ?_, ?_, ?_, ?_, ?_⟩
  · rw [form_company_de_corp acmePayload acmeModel d hv (by decide) (by decide)]
    have e1 : acmeModel.company_name ++ "_formation_documents.zip" =
        "Acme Corp, Inc._formation_documents.zip" := by decide
    have e2 : acmeModel.company_name ++ "_certificate.pdf" =
        "Acme Corp, Inc._certificate.pdf" := by decide
    have e3 : acmeModel.company_name ++ "_certificate.txt" =
        "Acme Corp, Inc._certificate.txt" := by decide
    rw [e1, e2, e3]
  · simp [generate_delaware_articles, acmeModel]
  · simp [generate_delaware_articles, acmeModel]
  · simp [generate_delaware_articles, acmeModel]
  · unfold generate_delaware_articles
    exact strContains_appendl <| strContains_appendl <| strContains_appendl <|
      strContains_appendl <| strContains_appendl <| strContains_appendl <|
      strContains_appendl <| strContains_appendl <| strContains_appendl <|
      strContains_appendl <| strContains_appendl <| strContains_appendl <|
      strContains_appendl <| strContains_self _
  · exact (delaware_articles_agree acmeModel d).1.2
  · exact (delaware_articles_agree acmeModel d).2.1.2
  · intro p r hval hde
    obtain ⟨-, -, -, htype⟩ := validate_ok_inv hval
    rcases htype with ht | ht
    · exact ⟨_, _, form_company_de_corp p r d hval hde ht⟩
    · exact ⟨_, _, form_company_de_llc p r d hval hde ht⟩

/-- Witness for C6: the naming rule applied to a concrete Delaware LLC
request whose name carries spaces, a comma and an ampersand. -/
theorem acme_archive_contents_witness :
    ∃ c1 c2,
      form_company ⟨some "Smith & Sons, LLC", some "DE", some "LLC", some "Jane Doe"⟩
          ⟨"12", "October, 2026"⟩ =
        .download ("Smith & Sons, LLC" ++ "_formation_documents.zip") "application/zip"
          [("Smith & Sons, LLC" ++ "_certificate.pdf", c1),
           ("Smith & Sons, LLC" ++ "_certificate.txt", c2)] :=
  (acme_archive_contents ⟨"12", "October, 2026"⟩).2.2.2.2.2.2.2 _
    ⟨"Smith & Sons, LLC", "DE", "LLC", "Jane Doe"⟩ (by decide) (by decide)

/-- C9: both Delaware template functions return a document body and a
text body carrying the same substituted values, while each California
template function returns only a document body, with no text
counterpart. -/
theorem delaware_text_california_none (cd : CompanyFormation) (d : PyDate) :
    templateArtifacts "DE" "corporation" cd d =
      some ((generate_delaware_articles cd d).1,
            some (generate_delaware_articles cd d).2) ∧
    templateArtifacts "DE" "LLC" cd d =
      some ((generate_delaware_llc_certificate cd d).1,
            some (generate_delaware_llc_certificate cd d).2) ∧
    substitutionsAgree (generate_delaware_articles cd d).1
      (generate_delaware_articles cd d).2 cd d ∧
    substitutionsAgree (generate_delaware_llc_certificate cd d).1
      (generate_delaware_llc_certificate cd d).2 cd d ∧
    templateArtifacts "CA" "corporation" cd d =
      some (generate_california_articles cd d, none) ∧
    templateArtifacts "CA" "LLC" cd d =
      some (generate_california_llc_certificate cd d, none) := by
  refine ⟨by simp [templateArtifacts], by simp [templateArtifacts],
    delaware_articles_agree cd d, delaware_llc_agree cd d,
    by simp [templateArtifacts], by simp [templateArtifacts]⟩

/-- Witness for C9 at a concrete company and date: the California
corporation template yields a document body and no text counterpart. -/
theorem delaware_text_california_none_witness :
    templateArtifacts "CA" "corporation"
        ⟨"Tech Innovators Co.", "CA", "corporation", "Michael Johnson"⟩
        ⟨"12", "October, 2026"⟩ =
      some (generate_california_articles
              ⟨"Tech Innovators Co.", "CA", "corporation", "Michael Johnson"⟩
              ⟨"12", "October, 2026"⟩, none) :=
  (delaware_text_california_none
      ⟨"Tech Innovators Co.", "CA", "corporation", "Michael Johnson"⟩
      ⟨"12", "October, 2026"⟩).2.2.2.2.1
